import Mathlib

/-!
# Verification of the azure-resource-group-inventory core (`main.go`)

A shallow embedding, in Lean 4, of the core logic of the
`azure-resource-group-inventory` CLI:

* the name-based default-resource-group classifier
  (`checkIfDefaultResourceGroup`, main.go:453-551) together with the
  pre-compiled regular expressions it dispatches on (main.go:22-34);
* the concurrency-budget coercion (`validateConcurrency`, main.go:443-449)
  and the configuration defaulting applied before it (`initConfig`,
  main.go:344-357);
* the rate-limited HTTP request wrapper with exponential backoff
  (`makeAzureRequestWithRetry`, main.go:377-432);
* the bounded worker pool that fans per-resource-group fetches out over a
  semaphore and reassembles results into index-addressed slots
  (`processResourceGroupsConcurrently`, main.go:1053-1101, and its CSV
  variant `processResourceGroupsConcurrentlyCSV`, main.go:1315-1369);
* the synchronous storage-account processing path
  (`processStorageAccountsConcurrently`, main.go:697-730, and
  `processStorageAccountsConcurrentlyCSV`, main.go:733-774);
* the oldest-first comparator used when ranking storage accounts
  (`printStorageAccountResults`, main.go:956-980).

Modelling conventions: Go `string` values are modelled as `List Char`
(named `Str` below) so that every definition evaluates by kernel
reduction; Go `time.Time` values are modelled as integers (a total order
is all the code uses, via `Time.Before`); `*time.Time` becomes
`Option Int`; Go `error` values become `Option Str` or an explicit error
type.  Durations are in milliseconds.
-/

namespace AzRg

/-- Go `string`, modelled as its sequence of characters. -/
abbrev Str := List Char

/-- `strings.ToLower`, character by character (the names the code matches
are ASCII, where `Char.toLower` agrees with Go's Unicode lowering). -/
def toLowerStr (s : Str) : Str := s.map Char.toLower

/-- `strings.HasPrefix` / an anchored `^literal` regex match. -/
def startsWithStr (s p : Str) : Bool := s.take p.length == p

/-! ## Classifier (main.go:22-34, 453-551)

The ten patterns are anchored RE2 regular expressions over the lower-cased
name.  Each is translated to an executable predicate on `Str`:

* `^defaultresourcegroup-`, `^azurebackuprg`, `^databricks-rg` have no `$`
  anchor, so `MatchString` succeeds exactly on strings with that prefix;
* `^dynamicsdeployments$`, `^networkwatcherrg$`, `^microsoft-network$`,
  `^loganalyticsdefaultresources$` are exact-string tests;
* `^default-[a-z0-9]+(-[a-z0-9]+)*$` demands the prefix `default-` followed
  by one or more dash-separated non-empty `[a-z0-9]` segments;
* `^cloud-shell-storage-[a-z0-9]+$` demands the prefix followed by a
  non-empty `[a-z0-9]` tail;
* `^mc_.*_.*_.*$` demands the prefix `mc_` and at least two further
  underscores; in RE2 `.` never matches a newline and the anchors bind the
  whole string, so a name containing a newline cannot match.
-/

/-- The character class `[a-z0-9]`. -/
def isLowerAlnum (c : Char) : Bool :=
  (Char.ofNat 97 ≤ c && c ≤ Char.ofNat 122) || (Char.ofNat 48 ≤ c && c ≤ Char.ofNat 57)

/-- `^defaultresourcegroup-` (main.go:24), unanchored on the right. -/
def defaultResourceGroupPattern (s : Str) : Bool :=
  startsWithStr s "defaultresourcegroup-".toList

/-- `^default-[a-z0-9]+(-[a-z0-9]+)*$` (main.go:25): after the literal
prefix, one or more dash-separated non-empty lower-alphanumeric segments. -/
def defaultServicePattern (s : Str) : Bool :=
  startsWithStr s "default-".toList &&
    ((s.drop 8).splitOn (Char.ofNat 45)).all (fun seg => !seg.isEmpty && seg.all isLowerAlnum)

/-- `^cloud-shell-storage-[a-z0-9]+$` (main.go:26). -/
def cloudShellStoragePattern (s : Str) : Bool :=
  startsWithStr s "cloud-shell-storage-".toList &&
    !(s.drop 20).isEmpty && (s.drop 20).all isLowerAlnum

/-- `^dynamicsdeployments$` (main.go:27). -/
def dynamicsPattern (s : Str) : Bool :=
  s == "dynamicsdeployments".toList

/-- `^mc_.*_.*_.*$` (main.go:28): the prefix `mc_`, at least two further
underscores, and no newline (RE2 `.` does not match a newline). -/
def aksPattern (s : Str) : Bool :=
  startsWithStr s "mc_".toList &&
    2 ≤ ((s.drop 3).filter (· == Char.ofNat 95)).length &&
    s.all (· ≠ Char.ofNat 10)

/-- `^azurebackuprg` (main.go:29), unanchored on the right. -/
def azureBackupPattern (s : Str) : Bool :=
  startsWithStr s "azurebackuprg".toList

/-- `^networkwatcherrg$` (main.go:30). -/
def networkWatcherPattern (s : Str) : Bool :=
  s == "networkwatcherrg".toList

/-- `^databricks-rg` (main.go:31), unanchored on the right. -/
def databricksPattern (s : Str) : Bool :=
  startsWithStr s "databricks-rg".toList

/-- `^microsoft-network$` (main.go:32). -/
def microsoftNetworkPattern (s : Str) : Bool :=
  s == "microsoft-network".toList

/-- `^loganalyticsdefaultresources$` (main.go:33). -/
def logAnalyticsPattern (s : Str) : Bool :=
  s == "loganalyticsdefaultresources".toList

/-- `DefaultResourceGroupInfo` (main.go:435-439). -/
structure DefaultResourceGroupInfo where
  isDefault : Bool
  createdBy : Str
  description : Str
deriving Repr, DecidableEq

/-- `checkIfDefaultResourceGroup` (main.go:453-551): lower-case the name,
then test the ten patterns in source order; the first match wins and an
unmatched name yields the all-empty, non-default record. -/
def checkIfDefaultResourceGroup (name : Str) : DefaultResourceGroupInfo :=
  let nameLower := toLowerStr name
  if defaultResourceGroupPattern nameLower then
    { isDefault := true
      createdBy := "Azure CLI / Cloud Shell / Visual Studio".toList
      description := "Common default resource group created for the region, used by Azure CLI, Cloud Shell, and Visual Studio for resource deployment".toList }
  else if defaultServicePattern nameLower then
    { isDefault := true
      createdBy := "Azure Services".toList
      description := "Default resource group created by Azure services for regional deployments".toList }
  else if cloudShellStoragePattern nameLower then
    { isDefault := true
      createdBy := "Azure Cloud Shell".toList
      description := "Default storage resource group created by Azure Cloud Shell for persistent storage".toList }
  else if dynamicsPattern nameLower then
    { isDefault := true
      createdBy := "Microsoft Dynamics ERP".toList
      description := "Automatically created for Microsoft Dynamics ERP non-production instances".toList }
  else if aksPattern nameLower then
    { isDefault := true
      createdBy := "Azure Kubernetes Service (AKS)".toList
      description := "Created when deploying an AKS cluster, contains infrastructure resources for the cluster".toList }
  else if azureBackupPattern nameLower then
    { isDefault := true
      createdBy := "Azure Backup".toList
      description := "Created by Azure Backup service for backup operations".toList }
  else if networkWatcherPattern nameLower then
    { isDefault := true
      createdBy := "Azure Network Watcher".toList
      description := "Created by Azure Network Watcher service for network monitoring".toList }
  else if databricksPattern nameLower then
    { isDefault := true
      createdBy := "Azure Databricks".toList
      description := "Created by Azure Databricks service for managed workspace resources".toList }
  else if microsoftNetworkPattern nameLower then
    { isDefault := true
      createdBy := "Microsoft Networking Services".toList
      description := "Used by Microsoft's networking services".toList }
  else if logAnalyticsPattern nameLower then
    { isDefault := true
      createdBy := "Azure Log Analytics".toList
      description := "Created by Azure Log Analytics service for default workspace resources".toList }
  else
    { isDefault := false, createdBy := [], description := [] }

/-! ## Concurrency-budget coercion (main.go:443-449, 344-357) -/

/-- `validateConcurrency` (main.go:443-449): values below 1 are coerced
to 1, anything else passes through. -/
def validateConcurrency (concurrency : Int) : Int :=
  if concurrency < 1 then 1 else concurrency

/-- The configuration path of `initConfig` (main.go:344-357): a configured
`MaxConcurrency` of 0 (viper's value for an unset flag) is replaced by the
default 10, and the result is then passed through `validateConcurrency`. -/
def initConfigMaxConcurrency (configured : Int) : Int :=
  let maxConcurrency := if configured = 0 then 10 else configured
  validateConcurrency maxConcurrency

/-! ## Rate-limited request wrapper (main.go:377-432)

`makeAzureRequestWithRetry` issues one call through `HTTPClient.Do` per
invocation and recurses with `attempt+1` after sleeping when the response
status is 429 and the retry cap is not yet reached.  The transport is
modelled as a function from the call index (equal to `attempt`, since the
entry point starts at 0 and every retry increments by one) to either a
transport-level failure or a response; the random jitter is modelled as a
function from the attempt number to the drawn jitter in milliseconds
(`rand.Intn(1000)` milliseconds in the source, main.go:406).  The outcome
records how many underlying calls were made and the total time slept. -/

/-- An HTTP response as the wrapper sees it: status code and body. -/
structure Response where
  status : Nat
  body : Str
deriving Repr, DecidableEq

/-- The outcome of one `HTTPClient.Do` call: a transport-level error or a
response. -/
inductive DoResult where
  | failure (msg : Str)
  | success (resp : Response)
deriving Repr, DecidableEq

/-- The error cases of `makeAzureRequestWithRetry`, one per `return nil,
fmt.Errorf(...)` site: a failed `Do` call (main.go:391), 429 with the
retry budget exhausted (main.go:401), and any other non-200 status
(main.go:428). -/
inductive FetchError where
  | transportFailed (msg : Str)
  | rateLimitExhausted (status : Nat) (body : Str)
  | httpStatus (status : Nat) (body : Str)
deriving Repr, DecidableEq

/-- What one (possibly retrying) `makeAzureRequestWithRetry` invocation
did: number of underlying `HTTPClient.Do` calls, total milliseconds slept
in backoff, and the final result. -/
structure RetryOutcome where
  calls : Nat
  sleptMs : Nat
  result : Except FetchError Response
deriving Repr

/-- `const maxRetries = 5` (main.go:378). -/
def maxRetries : Nat := 5

/-- `const baseDelay = 1 * time.Second` (main.go:379), in milliseconds. -/
def baseDelayMs : Nat := 1000

/-- `makeAzureRequestWithRetry` (main.go:377-432).  On a transport error
the error surfaces at once; on 429 with `attempt >= maxRetries` the
rate-limit-exhausted error surfaces; on 429 below the cap the code sleeps
`baseDelay * 2^attempt` plus jitter and recurses with `attempt+1`; any
other non-200 status surfaces at once; 200 returns the response. -/
def makeAzureRequestWithRetry (transport : Nat → DoResult) (jitterMs : Nat → Nat) :
    (attempt : Nat) → RetryOutcome
  | attempt =>
    match transport attempt with
    | .failure msg => { calls := 1, sleptMs := 0, result := .error (.transportFailed msg) }
    | .success resp =>
      if resp.status = 429 then
        if h : maxRetries ≤ attempt then
          { calls := 1, sleptMs := 0
            result := .error (.rateLimitExhausted resp.status resp.body) }
        else
          let totalDelay := baseDelayMs * 2 ^ attempt + jitterMs attempt
          let rest := makeAzureRequestWithRetry transport jitterMs (attempt + 1)
          { calls := rest.calls + 1, sleptMs := totalDelay + rest.sleptMs
            result := rest.result }
      else if resp.status = 200 then
        { calls := 1, sleptMs := 0, result := .ok resp }
      else
        { calls := 1, sleptMs := 0, result := .error (.httpStatus resp.status resp.body) }
termination_by attempt => maxRetries + 1 - attempt
decreasing_by simp only [maxRetries] at *; omega

/-- `makeAzureRequest` (main.go:373-375): the retrying wrapper entered at
attempt 0. -/
def makeAzureRequest (transport : Nat → DoResult) (jitterMs : Nat → Nat) : RetryOutcome :=
  makeAzureRequestWithRetry transport jitterMs 0

/-- A transport that is rate-limited on the first two calls and succeeds
on the third. -/
def transport429ThenOk : Nat → DoResult := fun n =>
  if n < 2 then .success { status := 429, body := "busy".toList }
  else .success { status := 200, body := "ok".toList }

/-- A transport that is rate-limited on every call. -/
def transportAlways429 : Nat → DoResult := fun _ =>
  .success { status := 429, body := "busy".toList }

/-! ## The bounded worker pool (main.go:1053-1101, 1315-1369)

Both pool variants allocate `results := make([]ResourceGroupResult,
len(resourceGroups))`, start one goroutine per index `i` that (under a
semaphore of capacity `maxConcurrency`) fetches the group's creation time
and writes slot `i`, and `wg.Wait()` for all of them.  Concurrency is
modelled by an explicit completion order: the list of slot indices in the
order in which the goroutines' writes land.  A full run is any completion
order that is a permutation of `0..N-1` (the `wg.Wait` join guarantees
every goroutine runs exactly once).  Slots start as `none` (unwritten) and
each completed goroutine `i` sets slot `i`. -/

/-- `ResourceGroup` (main.go:42-49). -/
structure ResourceGroup where
  id : Str
  name : Str
  location : Str
  provisioningState : Str
deriving Repr, DecidableEq, Inhabited

/-- The pair returned by `fetchResourceGroupCreatedTime` (main.go:1190):
`(*time.Time, error)`. -/
structure FetchOutcome where
  createdTime : Option Int
  error : Option Str
deriving Repr, DecidableEq

/-- `ResourceGroupResult` (main.go:163-167). -/
structure ResourceGroupResult where
  resourceGroup : ResourceGroup
  createdTime : Option Int
  error : Option Str
deriving Repr, DecidableEq

/-- The body of one pool goroutine (main.go:1080-1085): call
`fetchResourceGroupCreatedTime(rg.Name)` and build the slot value. -/
def workerResult (fetch : Str → FetchOutcome) (rg : ResourceGroup) : ResourceGroupResult :=
  let out := fetch rg.name
  { resourceGroup := rg, createdTime := out.createdTime, error := out.error }

/-- Index-addressed slot writes: starting from `init`, perform the write
for each task index in `completionOrder`, where task `i` writes `f i` into
slot `i`. -/
def writeSlots (f : Nat → α) (init : List α) (completionOrder : List Nat) : List α :=
  completionOrder.foldl (fun results i => results.set i (f i)) init

/-- `processResourceGroupsConcurrently` (main.go:1053-1101): every
goroutine `i` writes `results[i]`; the slots array is returned once every
write has landed (in `completionOrder`).  A slot still `none` was never
written. -/
def processResourceGroupsConcurrently (fetch : Str → FetchOutcome)
    (resourceGroups : List ResourceGroup) (completionOrder : List Nat) :
    List (Option ResourceGroupResult) :=
  writeSlots
    (fun i => some (workerResult fetch (resourceGroups.getD i default)))
    (List.replicate resourceGroups.length none)
    completionOrder

/-- `CSVRow` (main.go:1288-1297). -/
structure CSVRow where
  resourceGroupName : Str
  location : Str
  provisioningState : Str
  createdTime : Str
  isDefault : Str
  createdBy : Str
  description : Str
  resources : Str
deriving Repr, DecidableEq

/-- `convertToCSVRow` (main.go:1446-1488) in the plain path
(`listResources = false`, `resources = nil`, so the `Resources` cell is
empty): classification is recomputed from the name, and the created-time
cell renders the error, the formatted time, or `Not available`.  Time
rendering (`time.Format(time.RFC3339)`) is abstracted as `fmtTime`. -/
def convertToCSVRow (fmtTime : Int → Str) (result : ResourceGroupResult) : CSVRow :=
  let rg := result.resourceGroup
  let defaultInfo := checkIfDefaultResourceGroup rg.name
  let createdTimeStr : Str :=
    match result.error with
    | some e => "Error: ".toList ++ e
    | none =>
      match result.createdTime with
      | some t => fmtTime t
      | none => "Not available".toList
  { resourceGroupName := rg.name
    location := rg.location
    provisioningState := rg.provisioningState
    createdTime := createdTimeStr
    isDefault := if defaultInfo.isDefault then "true".toList else "false".toList
    createdBy := defaultInfo.createdBy
    description := defaultInfo.description
    resources := [] }

/-- `processResourceGroupsConcurrentlyCSV` (main.go:1315-1369): the same
pool as `processResourceGroupsConcurrently`, after which the results are
converted to CSV rows in slot order. -/
def processResourceGroupsConcurrentlyCSV (fmtTime : Int → Str) (fetch : Str → FetchOutcome)
    (resourceGroups : List ResourceGroup) (completionOrder : List Nat) :
    List (Option CSVRow) :=
  (processResourceGroupsConcurrently fetch resourceGroups completionOrder).map
    (Option.map (convertToCSVRow fmtTime))

/-! ## The admission semaphore (main.go:1060-1090)

`semaphore := make(chan struct{}, maxConcurrency)`: each goroutine sends
into the channel before fetching (blocking while the buffer holds
`maxConcurrency` tokens) and receives from it when done.  The lifecycle of
each goroutine is `idle` (not yet admitted), `holding` (admitted, fetch in
flight), `finished` (token released); a send can only fire while the
number of holders is strictly below the capacity. -/

/-- The phase of one pool goroutine with respect to the semaphore. -/
inductive TaskPhase where
  | idle
  | holding
  | finished
deriving Repr, DecidableEq

/-- How many goroutines currently hold a semaphore token — exactly the
per-`perItem`-fetch in-flight count, since the fetch happens strictly
between acquire and release (main.go:1077-1080). -/
def holdersCount (phases : List TaskPhase) : Nat :=
  phases.countP (· == TaskPhase.holding)

/-- One scheduler step of the pool: either an idle goroutine acquires the
semaphore (possible only while fewer than `cap` tokens are out), or a
holding goroutine completes its fetch and releases its token.  The
out-of-range default `.finished` makes out-of-range indices unusable. -/
inductive PoolStep (cap : Nat) : List TaskPhase → List TaskPhase → Prop
  | acquire (phases : List TaskPhase) (i : Nat)
      (hi : phases.getD i .finished = .idle)
      (hcap : holdersCount phases < cap) :
      PoolStep cap phases (phases.set i .holding)
  | release (phases : List TaskPhase) (i : Nat)
      (hi : phases.getD i .finished = .holding) :
      PoolStep cap phases (phases.set i .finished)

/-- The pool states reachable from `n` not-yet-admitted goroutines. -/
def PoolReachable (cap n : Nat) (phases : List TaskPhase) : Prop :=
  Relation.ReflTransGen (PoolStep cap) (List.replicate n .idle) phases

/-! ## Storage accounts (main.go:697-774, 777-821, 956-980) -/

/-- The `properties` block of `StorageAccount` (main.go:73-83). -/
structure StorageAccountProperties where
  provisioningState : Str
  creationTime : Option Int
  blobEndpoint : Str
  queueEndpoint : Str
  tableEndpoint : Str
  fileEndpoint : Str
  accountType : Str
deriving Repr, DecidableEq, Inhabited

/-- `StorageAccount` (main.go:67-85). -/
structure StorageAccount where
  id : Str
  name : Str
  location : Str
  saType : Str
  createdTime : Option Int
  properties : StorageAccountProperties
  tags : List (Str × Str)
deriving Repr, DecidableEq, Inhabited

/-- `StorageAccountResult` (main.go:91-95). -/
structure StorageAccountResult where
  storageAccount : StorageAccount
  createdTime : Option Int
  error : Option Str
deriving Repr, DecidableEq, Inhabited

/-- The per-account created-time selection in the processing loops
(main.go:710-714 and main.go:746-750): `Properties.CreationTime` when
present, otherwise the root-level `CreatedTime`. -/
def storageAccountCreatedTime (sa : StorageAccount) : Option Int :=
  match sa.properties.creationTime with
  | some t => some t
  | none => sa.createdTime

/-- `processStorageAccountsConcurrently` (main.go:697-730): the results
slice is preallocated at the input length and the loop writes slot `i`
from input `i` with a `nil` error; no per-account fetch is issued (the
function body contains no `makeAzureRequest` call). -/
def processStorageAccountsConcurrently (storageAccounts : List StorageAccount) :
    List StorageAccountResult :=
  writeSlots
    (fun i =>
      let sa := storageAccounts.getD i default
      { storageAccount := sa, createdTime := storageAccountCreatedTime sa, error := none })
    (List.replicate storageAccounts.length default)
    (List.range storageAccounts.length)

/-- `StorageAccountCSVRow` (main.go:1300-1312). -/
structure StorageAccountCSVRow where
  storageAccountName : Str
  location : Str
  accountType : Str
  provisioningState : Str
  createdTime : Str
  resourceGroup : Str
  blobEndpoint : Str
  queueEndpoint : Str
  tableEndpoint : Str
  fileEndpoint : Str
  error : Str
deriving Repr, DecidableEq

/-- The scan inside `extractResourceGroupFromID` (main.go:1235-1243): the
segment following the first `resourceGroups` segment that has one, else
the empty string. -/
def findResourceGroupSegment : List Str → Str
  | [] => []
  | [_] => []
  | p :: q :: rest =>
    if p = "resourceGroups".toList then q else findResourceGroupSegment (q :: rest)

/-- `extractResourceGroupFromID` (main.go:1235-1243): split the resource
ID on `/` and return the segment after `resourceGroups`. -/
def extractResourceGroupFromID (resourceID : Str) : Str :=
  findResourceGroupSegment (resourceID.splitOn (Char.ofNat 47))

/-- `convertStorageAccountToCSVRow` (main.go:777-821). -/
def convertStorageAccountToCSVRow (fmtTime : Int → Str) (result : StorageAccountResult) :
    StorageAccountCSVRow :=
  let sa := result.storageAccount
  let createdTimeStr : Str :=
    match result.error with
    | some e => "Error: ".toList ++ e
    | none =>
      match result.createdTime with
      | some t => fmtTime t
      | none => "Not available".toList
  let accountType : Str :=
    if sa.properties.accountType = [] || sa.properties.accountType = "Unknown".toList then
      if sa.saType = "Microsoft.Storage/storageAccounts".toList then
        "Standard_LRS".toList
      else
        "Unknown".toList
    else
      sa.properties.accountType
  let errorStr : Str :=
    match result.error with
    | some e => e
    | none => []
  { storageAccountName := sa.name
    location := sa.location
    accountType := accountType
    provisioningState := sa.properties.provisioningState
    createdTime := createdTimeStr
    resourceGroup := extractResourceGroupFromID sa.id
    blobEndpoint := sa.properties.blobEndpoint
    queueEndpoint := sa.properties.queueEndpoint
    tableEndpoint := sa.properties.tableEndpoint
    fileEndpoint := sa.properties.fileEndpoint
    error := errorStr }

/-- `processStorageAccountsConcurrentlyCSV` (main.go:733-774): the same
per-account loop as `processStorageAccountsConcurrently` (main.go:745-757),
after which every result is converted to a CSV row in order
(main.go:765-771). -/
def processStorageAccountsConcurrentlyCSV (fmtTime : Int → Str)
    (storageAccounts : List StorageAccount) : List StorageAccountCSVRow :=
  (processStorageAccountsConcurrently storageAccounts).map
    (convertStorageAccountToCSVRow fmtTime)

/-- The `sort.Slice` comparator in `printStorageAccountResults`
(main.go:962-970): an entry with no created time is never smaller; a real
time is smaller than a missing one; two real times compare with
`Time.Before`. -/
def storageAccountLess (a b : StorageAccountResult) : Bool :=
  match a.createdTime with
  | none => false
  | some ta =>
    match b.createdTime with
    | none => true
    | some tb => ta < tb

/-- What `sort.Slice` guarantees of its output: no later element is
strictly less than an earlier one. -/
def SortedByLess (l : List StorageAccountResult) : Prop :=
  l.Pairwise (fun a b => storageAccountLess b a = false)

instance : DecidablePred SortedByLess := fun _ =>
  List.instDecidablePairwise _

/-! ## Concrete instances used by witnesses and fixtures -/

/-- The closed range of the classifier: the ten recognised classifications
plus the unclassified record. -/
def knownClassifications : List DefaultResourceGroupInfo :=
  [ { isDefault := true
      createdBy := "Azure CLI / Cloud Shell / Visual Studio".toList
      description := "Common default resource group created for the region, used by Azure CLI, Cloud Shell, and Visual Studio for resource deployment".toList },
    { isDefault := true
      createdBy := "Azure Services".toList
      description := "Default resource group created by Azure services for regional deployments".toList },
    { isDefault := true
      createdBy := "Azure Cloud Shell".toList
      description := "Default storage resource group created by Azure Cloud Shell for persistent storage".toList },
    { isDefault := true
      createdBy := "Microsoft Dynamics ERP".toList
      description := "Automatically created for Microsoft Dynamics ERP non-production instances".toList },
    { isDefault := true
      createdBy := "Azure Kubernetes Service (AKS)".toList
      description := "Created when deploying an AKS cluster, contains infrastructure resources for the cluster".toList },
    { isDefault := true
      createdBy := "Azure Backup".toList
      description := "Created by Azure Backup service for backup operations".toList },
    { isDefault := true
      createdBy := "Azure Network Watcher".toList
      description := "Created by Azure Network Watcher service for network monitoring".toList },
    { isDefault := true
      createdBy := "Azure Databricks".toList
      description := "Created by Azure Databricks service for managed workspace resources".toList },
    { isDefault := true
      createdBy := "Microsoft Networking Services".toList
      description := "Used by Microsoft's networking services".toList },
    { isDefault := true
      createdBy := "Azure Log Analytics".toList
      description := "Created by Azure Log Analytics service for default workspace resources".toList },
    { isDefault := false, createdBy := [], description := [] } ]

/-- Two concrete resource groups, used to exercise the pool theorems. -/
def demoRGs : List ResourceGroup :=
  [ { id := [], name := "a".toList, location := "eastus".toList,
      provisioningState := "Succeeded".toList },
    { id := [], name := "b".toList, location := "westus".toList,
      provisioningState := "Succeeded".toList } ]

/-- A fetch that always succeeds with the same timestamp. -/
def demoFetch : Str → FetchOutcome := fun _ => { createdTime := some 5, error := none }

/-- A fetch that fails for the group named `b` and succeeds otherwise. -/
def demoFetchFail : Str → FetchOutcome := fun nm =>
  if nm = "b".toList then { createdTime := none, error := some "boom".toList }
  else { createdTime := some 5, error := none }

/-- A trivial time renderer for witnesses. -/
def demoFmtTime : Int → Str := fun _ => "t".toList

/-- A transport whose connection always fails. -/
def demoTransportRefused : Nat → DoResult := fun _ => .failure "connection refused".toList

/-- A transport that always answers 500. -/
def demoTransport500 : Nat → DoResult := fun _ =>
  .success { status := 500, body := "server error".toList }

/-- A storage-account fixture result with the given name and timestamp. -/
def fixtureAccount (nm : Str) (t : Option Int) : StorageAccountResult :=
  { storageAccount :=
      { id := []
        name := nm
        location := "eastus".toList
        saType := "Microsoft.Storage/storageAccounts".toList
        createdTime := t
        properties :=
          { provisioningState := "Succeeded".toList
            creationTime := t
            blobEndpoint := []
            queueEndpoint := []
            tableEndpoint := []
            fileEndpoint := []
            accountType := "Standard_LRS".toList }
        tags := [] }
    createdTime := t
    error := none }

/-- The grouped entries of P8, with timestamps `[T3, nil, T1, T2]` for
`T1 < T2 < T3`. -/
def fixtureT3 : StorageAccountResult := fixtureAccount "sa3".toList (some 3)

/-- The fixture entry with no known timestamp. -/
def fixtureNil : StorageAccountResult := fixtureAccount "sa0".toList none

/-- The oldest fixture entry. -/
def fixtureT1 : StorageAccountResult := fixtureAccount "sa1".toList (some 1)

/-- The second-oldest fixture entry. -/
def fixtureT2 : StorageAccountResult := fixtureAccount "sa2".toList (some 2)

/-- The P8 fixture list, in arrival order. -/
def oldestFixture : List StorageAccountResult :=
  [fixtureT3, fixtureNil, fixtureT1, fixtureT2]

/-! ## Lemmas about index-addressed slot writes -/

theorem writeSlots_cons (f : Nat → α) (init : List α) (i : Nat) (order : List Nat) :
    writeSlots f init (i :: order) = writeSlots f (init.set i (f i)) order := rfl

theorem writeSlots_length (f : Nat → α) (init : List α) (order : List Nat) :
    (writeSlots f init order).length = init.length := by
  induction order generalizing init with
  | nil => rfl
  | cons i rest ih => rw [writeSlots_cons, ih, List.length_set]

theorem writeSlots_getD (f : Nat → α) (d : α) (init : List α) (order : List Nat) (j : Nat)
    (hj : j < init.length) :
    (writeSlots f init order).getD j d = if j ∈ order then f j else init.getD j d := by
  induction order generalizing init with
  | nil => simp [writeSlots]
  | cons i rest ih =>
    rw [writeSlots_cons, ih _ (by simpa using hj)]
    by_cases hjr : j ∈ rest
    · simp [hjr]
    · by_cases hji : j = i
      · subst hji
        simp [hjr, List.getD_eq_getElem?_getD, List.getElem?_set_self, hj]
      · simp [hjr, hji, List.getD_eq_getElem?_getD, List.getElem?_set_ne (Ne.symm hji)]

theorem writeSlots_eq_map_of_perm (f : Nat → α) (d : α) (n : Nat) (order : List Nat)
    (hperm : order.Perm (List.range n)) :
    writeSlots f (List.replicate n d) order = (List.range n).map f := by
  have hlen : (writeSlots f (List.replicate n d) order).length = n := by
    rw [writeSlots_length, List.length_replicate]
  apply List.ext_getElem
  · simp [hlen]
  · intro j h1 h2
    have hj : j < n := by simpa [hlen] using h1
    have hmem : j ∈ order := hperm.mem_iff.2 (List.mem_range.2 hj)
    have hchar := writeSlots_getD f d (List.replicate n d) order j (by simpa using hj)
    rw [List.getD_eq_getElem?_getD] at hchar
    rw [List.getElem?_eq_getElem h1] at hchar
    simp [hmem] at hchar
    simp [hchar, hj]

theorem range_map_getD [Inhabited α] (l : List α) (g : α → β) :
    (List.range l.length).map (fun i => g (l.getD i default)) = l.map g := by
  apply List.ext_getElem
  · simp
  · intro j h1 h2
    have hj : j < l.length := by simpa using h2
    simp [List.getD_eq_getElem?_getD, List.getElem?_eq_getElem hj]

/-- The pool, run to completion (any completion order that is a
permutation of all task indices), fills slot `i` with the worker result
for entity `i` — element-wise it is the `map` of the per-item worker. -/
theorem processResourceGroupsConcurrently_eq_map (fetch : Str → FetchOutcome)
    (resourceGroups : List ResourceGroup) (completionOrder : List Nat)
    (hjoin : completionOrder.Perm (List.range resourceGroups.length)) :
    processResourceGroupsConcurrently fetch resourceGroups completionOrder
      = resourceGroups.map (fun rg => some (workerResult fetch rg)) := by
  rw [processResourceGroupsConcurrently, writeSlots_eq_map_of_perm _ _ _ _ hjoin,
    range_map_getD resourceGroups (fun rg => some (workerResult fetch rg))]

/-! ## Lemmas about the admission semaphore -/

theorem countP_set_add (p : TaskPhase → Bool) (l : List TaskPhase) (i : Nat) (v d : TaskPhase)
    (h : i < l.length) :
    (l.set i v).countP p + (if p (l.getD i d) then 1 else 0)
      = l.countP p + (if p v then 1 else 0) := by
  induction l generalizing i with
  | nil => simp at h
  | cons hd tl ih =>
    cases i with
    | zero => simp [List.countP_cons]; omega
    | succ m =>
      have hm : m < tl.length := by simpa using h
      have := ih m hm
      simp only [List.set_cons_succ, List.getD_cons_succ, List.countP_cons]
      simp only [List.getD_cons_succ] at this
      omega

theorem holdersCount_replicate_idle (n : Nat) :
    holdersCount (List.replicate n TaskPhase.idle) = 0 := by
  induction n with
  | zero => rfl
  | succ m ih => simp only [holdersCount, List.replicate_succ, List.countP_cons] at *; simp [ih]

theorem phase_lt_length {l : List TaskPhase} {i : Nat} {v : TaskPhase}
    (hne : l.getD i .finished = v) (hv : v ≠ .finished) : i < l.length := by
  by_contra hge
  rw [List.getD_eq_default _ _ (by omega)] at hne
  exact hv hne.symm

theorem holdersCount_le_of_step {cap : Nat} {s t : List TaskPhase} (hstep : PoolStep cap s t)
    (hs : holdersCount s ≤ cap) : holdersCount t ≤ cap := by
  cases hstep with
  | acquire i hi hcap =>
    have hilen : i < s.length := phase_lt_length hi (by decide)
    have hc := countP_set_add (· == TaskPhase.holding) s i .holding .finished hilen
    rw [hi] at hc
    simp only [holdersCount] at *
    simp at hc
    omega
  | release i hi =>
    have hilen : i < s.length := phase_lt_length hi (by decide)
    have hc := countP_set_add (· == TaskPhase.holding) s i .finished .finished hilen
    rw [hi] at hc
    simp only [holdersCount] at *
    simp at hc
    omega

/-! ## Claim theorems -/

/-- **C1**: for every input list of N resource groups (including N = 0,
where the empty result is immediate) and every order in which the
goroutines' slot writes land (any permutation of the task indices — the
`wg.Wait` join guarantees all complete), both
`processResourceGroupsConcurrently` and
`processResourceGroupsConcurrentlyCSV` produce exactly N results, and the
result in slot `i` is exactly the one derived from input entity `i`,
independent of the completion order. -/
theorem claim_C1 (fetch : Str → FetchOutcome) (fmtTime : Int → Str)
    (resourceGroups : List ResourceGroup) (completionOrder : List Nat)
    (hjoin : completionOrder.Perm (List.range resourceGroups.length)) :
    (processResourceGroupsConcurrently fetch resourceGroups completionOrder).length
        = resourceGroups.length ∧
    (processResourceGroupsConcurrentlyCSV fmtTime fetch resourceGroups completionOrder).length
        = resourceGroups.length ∧
    processResourceGroupsConcurrently fetch resourceGroups completionOrder
        = resourceGroups.map (fun rg => some (workerResult fetch rg)) ∧
    processResourceGroupsConcurrentlyCSV fmtTime fetch resourceGroups completionOrder
        = resourceGroups.map (fun rg => some (convertToCSVRow fmtTime (workerResult fetch rg))) := by
  have hmap := processResourceGroupsConcurrently_eq_map fetch resourceGroups completionOrder hjoin
  refine ⟨?_, ?_, hmap, ?_⟩
  · rw [hmap, List.length_map]
  · rw [processResourceGroupsConcurrentlyCSV, hmap]
    simp
  · rw [processResourceGroupsConcurrentlyCSV, hmap]
    simp [List.map_map]

/-- Witness for C1: a two-group input whose second goroutine finishes
first. -/
theorem claim_C1_witness :
    ([1, 0] : List Nat).Perm (List.range demoRGs.length) ∧
    ((processResourceGroupsConcurrently demoFetch demoRGs [1, 0]).length = demoRGs.length ∧
     (processResourceGroupsConcurrentlyCSV demoFmtTime demoFetch demoRGs [1, 0]).length
        = demoRGs.length ∧
     processResourceGroupsConcurrently demoFetch demoRGs [1, 0]
        = demoRGs.map (fun rg => some (workerResult demoFetch rg)) ∧
     processResourceGroupsConcurrentlyCSV demoFmtTime demoFetch demoRGs [1, 0]
        = demoRGs.map (fun rg => some (convertToCSVRow demoFmtTime (workerResult demoFetch rg)))) :=
  ⟨by decide, claim_C1 demoFetch demoFmtTime demoRGs [1, 0] (by decide)⟩

/-- **C2**: for every concurrency budget `cap ≥ 1` and every number of
goroutines `n`, in every state the pool can reach, the number of
goroutines holding a semaphore token — exactly the per-item fetches in
flight, which run strictly between acquire and release — never exceeds
`cap`. -/
theorem claim_C2 (cap n : Nat) (_hcap : 1 ≤ cap) (phases : List TaskPhase)
    (hreach : PoolReachable cap n phases) : holdersCount phases ≤ cap := by
  unfold PoolReachable at hreach
  induction hreach with
  | refl => simp [holdersCount_replicate_idle]
  | tail _ hstep ih => exact holdersCount_le_of_step hstep ih

/-- Witness for C2: with budget 1 and two goroutines, the state reached
after one acquisition has exactly one holder, within the budget. -/
theorem claim_C2_witness :
    (1 : Nat) ≤ 1 ∧
    PoolReachable 1 2 [TaskPhase.holding, TaskPhase.idle] ∧
    holdersCount [TaskPhase.holding, TaskPhase.idle] ≤ 1 := by
  have hstep : PoolStep 1 (List.replicate 2 TaskPhase.idle)
      ((List.replicate 2 TaskPhase.idle).set 0 TaskPhase.holding) :=
    PoolStep.acquire (List.replicate 2 TaskPhase.idle) 0 (by decide) (by decide)
  have hreach : PoolReachable 1 2 [TaskPhase.holding, TaskPhase.idle] :=
    Relation.ReflTransGen.single hstep
  exact ⟨le_refl 1, hreach, claim_C2 1 2 (le_refl 1) _ hreach⟩

/-- **C3** counterexample: on the configuration path, a configured value
of 0 — which is below 1 and which the claim says must yield exactly 1 —
is replaced by the default 10 before `validateConcurrency` runs, so the
effective concurrency at input 0 is 10, not 1. -/
theorem claim_C3_counterexample :
    initConfigMaxConcurrency 0 = 10 ∧ initConfigMaxConcurrency 0 ≠ 1 := by decide

/-- **C3**, amended: `validateConcurrency` maps every integer below 1
(0 and all negatives included) to exactly 1; on the configuration path a
configured 0 is replaced by the default 10 before the coercion (so 0
yields 10, not 1) while every other value below 1 still yields exactly 1;
in all cases the effective concurrency is at least 1, never 0 or
negative. -/
theorem claim_C3 (c : Int) (hc : c < 1) :
    validateConcurrency c = 1 ∧
    1 ≤ validateConcurrency c ∧
    (c ≠ 0 → initConfigMaxConcurrency c = 1) ∧
    initConfigMaxConcurrency 0 = 10 ∧
    (∀ v : Int, 1 ≤ initConfigMaxConcurrency v) := by
  refine ⟨by simp [validateConcurrency, hc], by simp [validateConcurrency, hc], ?_, by decide, ?_⟩
  · intro h0
    simp [initConfigMaxConcurrency, validateConcurrency, h0, hc]
  · intro v
    by_cases hv : v = 0
    · simp [initConfigMaxConcurrency, validateConcurrency, hv]
    · by_cases hv1 : v < 1
      · simp [initConfigMaxConcurrency, validateConcurrency, hv, hv1]
      · simp [initConfigMaxConcurrency, validateConcurrency, hv, hv1]
        omega

/-- Witness for C3 at the configured value -3. -/
theorem claim_C3_witness :
    (-3 : Int) < 1 ∧
    (validateConcurrency (-3) = 1 ∧
     1 ≤ validateConcurrency (-3) ∧
     ((-3 : Int) ≠ 0 → initConfigMaxConcurrency (-3) = 1) ∧
     initConfigMaxConcurrency 0 = 10 ∧
     (∀ v : Int, 1 ≤ initConfigMaxConcurrency v)) :=
  ⟨by norm_num, claim_C3 (-3) (by norm_num)⟩

/-- **C4**: with a transport that answers 429 on the first two calls and
200 on the third, `makeAzureRequest` succeeds after exactly 3 underlying
calls, having slept exactly `base*(2^0) + jitter(0)` then
`base*(2^1) + jitter(1)` — in particular at least `base*(1+2)` — before
the third call; with a transport that answers 429 on every call, it
returns the rate-limit-exhausted error and no response, after
`1 + maxRetries = 6` underlying calls (the retry count is capped at 5)
with per-attempt delay `base*2^attempt` plus a jitter below one second. -/
theorem claim_C4 (jitterMs : Nat → Nat) (hjit : ∀ a, jitterMs a < 1000) :
    ((makeAzureRequest transport429ThenOk jitterMs).calls = 3 ∧
     (makeAzureRequest transport429ThenOk jitterMs).result
        = .ok { status := 200, body := "ok".toList } ∧
     (makeAzureRequest transport429ThenOk jitterMs).sleptMs
        = (baseDelayMs * 2 ^ 0 + jitterMs 0) + (baseDelayMs * 2 ^ 1 + jitterMs 1) ∧
     baseDelayMs * (1 + 2) ≤ (makeAzureRequest transport429ThenOk jitterMs).sleptMs) ∧
    ((makeAzureRequest transportAlways429 jitterMs).calls = 1 + maxRetries ∧
     (makeAzureRequest transportAlways429 jitterMs).result
        = .error (.rateLimitExhausted 429 "busy".toList) ∧
     (makeAzureRequest transportAlways429 jitterMs).sleptMs
        = baseDelayMs * (1 + 2 + 4 + 8 + 16)
            + (jitterMs 0 + jitterMs 1 + jitterMs 2 + jitterMs 3 + jitterMs 4) ∧
     (makeAzureRequest transportAlways429 jitterMs).sleptMs < 36000) := by
  have h1 := hjit 0
  have h2 := hjit 1
  have h3 := hjit 2
  have h4 := hjit 3
  have h5 := hjit 4
  refine ⟨⟨?_, ?_, ?_, ?_⟩, ⟨?_, ?_, ?_, ?_⟩⟩ <;>
    simp [makeAzureRequest, makeAzureRequestWithRetry, transport429ThenOk,
      transportAlways429, maxRetries, baseDelayMs] <;>
    omega

/-- Witness for C4 with zero jitter. -/
theorem claim_C4_witness :
    (∀ a, (fun _ => 0 : Nat → Nat) a < 1000) ∧
    (((makeAzureRequest transport429ThenOk (fun _ => 0)).calls = 3 ∧
      (makeAzureRequest transport429ThenOk (fun _ => 0)).result
         = .ok { status := 200, body := "ok".toList } ∧
      (makeAzureRequest transport429ThenOk (fun _ => 0)).sleptMs
         = (baseDelayMs * 2 ^ 0 + (fun _ => 0 : Nat → Nat) 0)
             + (baseDelayMs * 2 ^ 1 + (fun _ => 0 : Nat → Nat) 1) ∧
      baseDelayMs * (1 + 2) ≤ (makeAzureRequest transport429ThenOk (fun _ => 0)).sleptMs) ∧
     ((makeAzureRequest transportAlways429 (fun _ => 0)).calls = 1 + maxRetries ∧
      (makeAzureRequest transportAlways429 (fun _ => 0)).result
         = .error (.rateLimitExhausted 429 "busy".toList) ∧
      (makeAzureRequest transportAlways429 (fun _ => 0)).sleptMs
         = baseDelayMs * (1 + 2 + 4 + 8 + 16)
             + ((fun _ => 0 : Nat → Nat) 0 + (fun _ => 0 : Nat → Nat) 1
                 + (fun _ => 0 : Nat → Nat) 2 + (fun _ => 0 : Nat → Nat) 3
                 + (fun _ => 0 : Nat → Nat) 4) ∧
      (makeAzureRequest transportAlways429 (fun _ => 0)).sleptMs < 36000)) :=
  ⟨fun _ => by simp, claim_C4 (fun _ => 0) (fun _ => by simp)⟩

/-- **C5**: the retry wrapper retries only on HTTP 429.  At any attempt, a
transport-level failure of the `Do` call surfaces as an error after that
single underlying call, and a response with any status other than 429 and
200 surfaces as an error after that single underlying call — in both
cases with no retry and no sleep. -/
theorem claim_C5 (transport : Nat → DoResult) (jitterMs : Nat → Nat) (attempt : Nat) :
    (∀ msg, transport attempt = .failure msg →
      makeAzureRequestWithRetry transport jitterMs attempt
        = { calls := 1, sleptMs := 0, result := .error (.transportFailed msg) }) ∧
    (∀ resp, transport attempt = .success resp → resp.status ≠ 429 → resp.status ≠ 200 →
      makeAzureRequestWithRetry transport jitterMs attempt
        = { calls := 1, sleptMs := 0, result := .error (.httpStatus resp.status resp.body) }) := by
  constructor
  · intro msg h
    rw [makeAzureRequestWithRetry, h]
  · intro resp h h429 h200
    rw [makeAzureRequestWithRetry, h]
    simp [h429, h200]

/-- Witness for C5: a refused connection and a 500 status each produce an
immediate error after one call. -/
theorem claim_C5_witness :
    makeAzureRequestWithRetry demoTransportRefused (fun _ => 0) 0
      = { calls := 1, sleptMs := 0
          result := .error (.transportFailed "connection refused".toList) } ∧
    makeAzureRequestWithRetry demoTransport500 (fun _ => 0) 0
      = { calls := 1, sleptMs := 0
          result := .error (.httpStatus 500 "server error".toList) } :=
  ⟨(claim_C5 demoTransportRefused (fun _ => 0) 0).1 "connection refused".toList rfl,
   (claim_C5 demoTransport500 (fun _ => 0) 0).2
      { status := 500, body := "server error".toList } rfl (by decide) (by decide)⟩

/-- **C6**: if the fetch for exactly one resource group (index `k`) fails
while every other group's fetch succeeds, a completed pool run still fills
every slot: slot `k` holds the failing group's result with its error
recorded, and every other slot holds exactly what it would hold under a
fetch (`fetchOk`) that agrees on every other group — the batch is never
aborted by the per-entity error. -/
theorem claim_C6 (fetch fetchOk : Str → FetchOutcome) (resourceGroups : List ResourceGroup)
    (k : Nat) (err : Str) (order order2 : List Nat)
    (hk : k < resourceGroups.length)
    (hfail : (fetch (resourceGroups.getD k default).name).error = some err)
    (hothers : ∀ j, j < resourceGroups.length → j ≠ k →
      (fetch (resourceGroups.getD j default).name).error = none)
    (hagree : ∀ j, j < resourceGroups.length → j ≠ k →
      fetchOk (resourceGroups.getD j default).name = fetch (resourceGroups.getD j default).name)
    (horder : order.Perm (List.range resourceGroups.length))
    (horder2 : order2.Perm (List.range resourceGroups.length)) :
    (processResourceGroupsConcurrently fetch resourceGroups order).length
        = resourceGroups.length ∧
    (processResourceGroupsConcurrently fetch resourceGroups order).getD k none
        = some (workerResult fetch (resourceGroups.getD k default)) ∧
    (workerResult fetch (resourceGroups.getD k default)).error = some err ∧
    (∀ j, j < resourceGroups.length → j ≠ k →
      (processResourceGroupsConcurrently fetch resourceGroups order).getD j none
          = (processResourceGroupsConcurrently fetchOk resourceGroups order2).getD j none ∧
      ∃ r, (processResourceGroupsConcurrently fetch resourceGroups order).getD j none = some r
             ∧ r.error = none) := by
  have hmap := processResourceGroupsConcurrently_eq_map fetch resourceGroups order horder
  have hmap2 := processResourceGroupsConcurrently_eq_map fetchOk resourceGroups order2 horder2
  have hslot : ∀ (f : Str → FetchOutcome) (j : Nat), j < resourceGroups.length →
      (resourceGroups.map (fun rg => some (workerResult f rg))).getD j none
        = some (workerResult f (resourceGroups.getD j default)) := by
    intro f j hj
    rw [List.getD_eq_getElem?_getD,
      List.getElem?_eq_getElem (by simpa using hj)]
    simp [List.getD_eq_getElem, hj]
  refine ⟨by rw [hmap, List.length_map], ?_, ?_, ?_⟩
  · rw [hmap, hslot fetch k hk]
  · exact hfail
  · intro j hj hjk
    refine ⟨?_, ?_⟩
    · rw [hmap, hmap2, hslot fetch j hj, hslot fetchOk j hj]
      rw [workerResult, workerResult, hagree j hj hjk]
    · refine ⟨workerResult fetch (resourceGroups.getD j default), ?_, ?_⟩
      · rw [hmap, hslot fetch j hj]
      · exact hothers j hj hjk

/-- Witness for C6: two groups, the second of which fails to fetch. -/
theorem claim_C6_witness :
    ((1 : Nat) < demoRGs.length ∧
     (demoFetchFail (demoRGs.getD 1 default).name).error = some "boom".toList ∧
     (∀ j, j < demoRGs.length → j ≠ 1 →
       (demoFetchFail (demoRGs.getD j default).name).error = none) ∧
     (∀ j, j < demoRGs.length → j ≠ 1 →
       demoFetch (demoRGs.getD j default).name = demoFetchFail (demoRGs.getD j default).name) ∧
     ([1, 0] : List Nat).Perm (List.range demoRGs.length) ∧
     ([0, 1] : List Nat).Perm (List.range demoRGs.length)) ∧
    ((processResourceGroupsConcurrently demoFetchFail demoRGs [1, 0]).length = demoRGs.length ∧
     (processResourceGroupsConcurrently demoFetchFail demoRGs [1, 0]).getD 1 none
        = some (workerResult demoFetchFail (demoRGs.getD 1 default)) ∧
     (workerResult demoFetchFail (demoRGs.getD 1 default)).error = some "boom".toList ∧
     (∀ j, j < demoRGs.length → j ≠ 1 →
       (processResourceGroupsConcurrently demoFetchFail demoRGs [1, 0]).getD j none
           = (processResourceGroupsConcurrently demoFetch demoRGs [0, 1]).getD j none ∧
       ∃ r, (processResourceGroupsConcurrently demoFetchFail demoRGs [1, 0]).getD j none
              = some r ∧ r.error = none)) :=
  ⟨⟨by decide, by decide, by decide, by decide, by decide, by decide⟩,
   claim_C6 demoFetchFail demoFetch demoRGs 1 "boom".toList [1, 0] [0, 1]
     (by decide) (by decide) (by decide) (by decide) (by decide) (by decide)⟩

/-- **C7**: the oldest-first ranking comparator of
`printStorageAccountResults` sorts ascending by creation timestamp with
every nil-timestamp entry after every real-timestamp entry: in any list
sorted by it, no nil-timestamp entry precedes a real-timestamp entry, and
for the grouped fixture with timestamps `[T3, nil, T1, T2]`
(`T1 < T2 < T3`) any sorted permutation starts with the `T1` entry then
the `T2` entry — so the top-2-oldest selection returns them in that
order. -/
theorem claim_C7 :
    (∀ l : List StorageAccountResult, SortedByLess l →
      ∀ i j (hi : i < l.length) (hj : j < l.length), i < j →
        (l.get ⟨i, hi⟩).createdTime = none → (l.get ⟨j, hj⟩).createdTime = none) ∧
    (∀ l : List StorageAccountResult, l.Perm oldestFixture → SortedByLess l →
      l.take 2 = [fixtureT1, fixtureT2]) := by
  constructor
  · intro l hsort i j hi hj hij hnone
    have hpair := (List.pairwise_iff_getElem.1 hsort) i j hi hj hij
    simp only [List.get_eq_getElem] at hnone ⊢
    cases hcj : l[j].createdTime with
    | none => rfl
    | some t =>
      exfalso
      simp [storageAccountLess, hcj, hnone] at hpair
  · intro l hperm hsort
    exact (by decide :
        ∀ x ∈ oldestFixture.permutations', SortedByLess x → x.take 2 = [fixtureT1, fixtureT2])
      l (List.mem_permutations'.2 hperm) hsort

/-- Witness for C7: the ascending arrangement of the fixture is a sorted
permutation of it, and its first two entries are the `T1` and `T2`
entries. -/
theorem claim_C7_witness :
    [fixtureT1, fixtureT2, fixtureT3, fixtureNil].Perm oldestFixture ∧
    SortedByLess [fixtureT1, fixtureT2, fixtureT3, fixtureNil] ∧
    [fixtureT1, fixtureT2, fixtureT3, fixtureNil].take 2 = [fixtureT1, fixtureT2] :=
  ⟨by decide, by decide,
   claim_C7.2 [fixtureT1, fixtureT2, fixtureT3, fixtureNil] (by decide) (by decide)⟩

/-- **C8**: the classifier's literal fixtures.
`checkIfDefaultResourceGroup "DefaultResourceGroup-EUS"` is a recognised
default created by "Azure CLI / Cloud Shell / Visual Studio";
`checkIfDefaultResourceGroup "MC_myRG_myAKS_eastus"` is a recognised
default created by "Azure Kubernetes Service (AKS)";
`checkIfDefaultResourceGroup "my-custom-rg"` is not a default and has an
empty creator. -/
theorem claim_C8 :
    (checkIfDefaultResourceGroup "DefaultResourceGroup-EUS".toList).isDefault = true ∧
    (checkIfDefaultResourceGroup "DefaultResourceGroup-EUS".toList).createdBy
        = "Azure CLI / Cloud Shell / Visual Studio".toList ∧
    (checkIfDefaultResourceGroup "MC_myRG_myAKS_eastus".toList).isDefault = true ∧
    (checkIfDefaultResourceGroup "MC_myRG_myAKS_eastus".toList).createdBy
        = "Azure Kubernetes Service (AKS)".toList ∧
    (checkIfDefaultResourceGroup "my-custom-rg".toList).isDefault = false ∧
    (checkIfDefaultResourceGroup "my-custom-rg".toList).createdBy = [] := by
  decide

set_option maxHeartbeats 1000000 in
/-- **C9**: the classifier is a total function on all names (it is a Lean
`def`, so it terminates and never errors on any input, the empty string
and arbitrarily long strings included), it is deterministic (two calls on
the same name are equal), and every output lies in the closed set of the
ten recognised classifications plus the unclassified record. -/
theorem claim_C9 (name : Str) :
    checkIfDefaultResourceGroup name = checkIfDefaultResourceGroup name ∧
    checkIfDefaultResourceGroup name ∈ knownClassifications := by
  refine ⟨rfl, ?_⟩
  unfold checkIfDefaultResourceGroup
  dsimp only
  split_ifs <;>
    simp only [knownClassifications, List.mem_cons, List.not_mem_nil, or_false] <;>
    tauto

/-- **C10**: the storage-account path issues no per-entity fetch (its
definition consumes no transport or fetch function at all) and produces
one result per account, in input order, with a nil error in every slot
and the created time taken from `Properties.CreationTime` when that is
set and from the root-level `CreatedTime` otherwise; the CSV variant is
the same results converted row by row in order. -/
theorem claim_C10 (fmtTime : Int → Str) (storageAccounts : List StorageAccount) :
    (processStorageAccountsConcurrently storageAccounts).length = storageAccounts.length ∧
    processStorageAccountsConcurrently storageAccounts
      = storageAccounts.map (fun sa =>
          { storageAccount := sa, createdTime := storageAccountCreatedTime sa, error := none }) ∧
    processStorageAccountsConcurrentlyCSV fmtTime storageAccounts
      = storageAccounts.map (fun sa =>
          convertStorageAccountToCSVRow fmtTime
            { storageAccount := sa, createdTime := storageAccountCreatedTime sa, error := none }) ∧
    (∀ r ∈ processStorageAccountsConcurrently storageAccounts,
      r.error = none ∧
      r.createdTime
        = (match r.storageAccount.properties.creationTime with
           | some t => some t
           | none => r.storageAccount.createdTime)) := by
  have hmap : processStorageAccountsConcurrently storageAccounts
      = storageAccounts.map (fun sa =>
          { storageAccount := sa, createdTime := storageAccountCreatedTime sa, error := none }) := by
    rw [processStorageAccountsConcurrently,
      writeSlots_eq_map_of_perm _ _ _ _ (List.Perm.refl _),
      range_map_getD storageAccounts (fun sa =>
        ({ storageAccount := sa, createdTime := storageAccountCreatedTime sa, error := none }
          : StorageAccountResult))]
  refine ⟨by rw [hmap, List.length_map], hmap, ?_, ?_⟩
  · rw [processStorageAccountsConcurrentlyCSV, hmap, List.map_map]
    rfl
  · intro r hr
    rw [hmap] at hr
    obtain ⟨sa, _, rfl⟩ := List.mem_map.1 hr
    exact ⟨rfl, rfl⟩

end AzRg

